import Mathlib

/-!
Verification of the inspection-report extraction and registry reconciliation
pipeline (`inspection_parser.py`, `registry_updater.py`).

The embedding models pandas DataFrames of the inspection sheets as untyped
grids of cell values, the customer registry as a named-column table, and the
Python functions of the two modules as Lean functions over these.  Machine
dates (`datetime.datetime`) are modelled as year/month/day triples with the
CPython validity rules; fallible Python code (`raise` caught by `except`)
is modelled with `Except String`.
-/

set_option maxRecDepth 100000

namespace Poytakirjat

/-- Calendar date, modelling the date part of a Python `datetime` value. -/
structure Date where
  year : Int
  month : Int
  day : Int
deriving DecidableEq, Repr

/-- Gregorian leap-year rule, as used by CPython's `datetime`. -/
def isLeapYear (y : Int) : Bool :=
  (y % 4 == 0 && y % 100 != 0) || (y % 400 == 0)

/-- Number of days in a month, as used by CPython's `datetime` validation. -/
def daysInMonth (y m : Int) : Int :=
  if m = 2 then (if isLeapYear y then 29 else 28)
  else if m = 4 ∨ m = 6 ∨ m = 9 ∨ m = 11 then 30
  else 31

/-- Validity of a `datetime(year, month, day)` construction: CPython accepts
years 1..9999, months 1..12 and days 1..(days in month). -/
def validDate (y m d : Int) : Bool :=
  1 ≤ y && y ≤ 9999 && 1 ≤ m && m ≤ 12 && 1 ≤ d && d ≤ daysInMonth y m

/-- Model of the `datetime(year, month, day)` constructor: returns the date or
raises `ValueError` (modelled as `Except.error`) when out of range. -/
def mkDatetime (y m d : Int) : Except String Date :=
  if validDate y m d then .ok ⟨y, m, d⟩ else .error "ValueError: date value out of range"

/-- Model of `d.replace(year := y, day := day)` on a `datetime`: the other
fields are kept and the new combination is validated like a construction. -/
def dateReplace (d : Date) (y newDay : Int) : Except String Date :=
  mkDatetime y d.month newDay

/-- Two-digit zero padding used by `strftime` for `%d` and `%m`. -/
def pad2 (n : Int) : String :=
  if 0 ≤ n ∧ n < 10 then "0" ++ toString n else toString n

/-- Model of `strftime("%d.%m.%Y")`, the registry date display format. -/
def fmtDateDDMMYYYY (d : Date) : String :=
  pad2 d.day ++ "." ++ pad2 d.month ++ "." ++ toString d.year

/-- Model of `strftime("1.%m.%Y")`, the variant format used by the
`inspection_parser.py` copy of the reconciler. -/
def fmtDateFirstMY (d : Date) : String :=
  "1." ++ pad2 d.month ++ "." ++ toString d.year

/-- Untyped cell/field value, modelling the Python values that occur in the
sheets and records: missing/NaN/None, strings, integers, booleans, datetimes. -/
inductive Value where
  | none
  | str (s : String)
  | int (n : Int)
  | bool (b : Bool)
  | date (d : Date)
deriving DecidableEq, Repr

/-- Model of `pd.notna`: only the missing value (None/NaN) is NA. -/
def pyNotna : Value → Bool
  | .none => false
  | _ => true

/-- Python truthiness of a cell/field value (`None`, `""`, `0` and `False` are
falsy; `datetime` objects are always truthy). -/
def pyTruthy : Value → Bool
  | .none => false
  | .str s => s ≠ ""
  | .int n => n ≠ 0
  | .bool b => b
  | .date _ => true

/-- Python `str()` of a datetime (`YYYY-MM-DD HH:MM:SS` with zero time). -/
def pyStrDate (d : Date) : String :=
  toString d.year ++ "-" ++ pad2 d.month ++ "-" ++ pad2 d.day ++ " 00:00:00"

/-- Model of Python `str()` coercion for the values of the model. -/
def pyStr : Value → String
  | .none => "None"
  | .str s => s
  | .int n => toString n
  | .bool b => if b then "True" else "False"
  | .date d => pyStrDate d

/-- Model of Python `int(s)` on a stripped all-digit string (the only string
shape the sources feed to `int` after an `isdigit` check), and of `int()` on
numeric strings with an optional sign as used by the date parsers; returns
`none` where CPython would raise `ValueError`. -/
def pyParseInt (s : String) : Option Int :=
  let t := s.trim
  if t = "" then Option.none
  else if t.startsWith "-" then
    let u := t.drop 1
    if u ≠ "" ∧ u.all Char.isDigit then Option.some (-(u.toNat!)) else Option.none
  else if t.startsWith "+" then
    let u := t.drop 1
    if u ≠ "" ∧ u.all Char.isDigit then Option.some (u.toNat!) else Option.none
  else if t.all Char.isDigit then Option.some (t.toNat!) else Option.none

/-- Untyped sheet grid, modelling the header-less DataFrame that
`pd.read_excel(file, sheet_name=0, header=None)` produces.  Rows may be
ragged in the model; pandas pads short rows with NaN, which cell access
reproduces by defaulting to `Value.none`. -/
structure Grid where
  cells : List (List Value)
deriving DecidableEq, Repr

/-- Number of rows, `df.shape[0]`. -/
def Grid.nrows (g : Grid) : Nat := g.cells.length

/-- Number of columns, `df.shape[1]` (the widest row). -/
def Grid.ncols (g : Grid) : Nat := (g.cells.map List.length).foldr max 0

/-- Raw cell access with NaN (here `Value.none`) padding outside stored data. -/
def Grid.cellAt (g : Grid) (r c : Nat) : Value :=
  ((g.cells.getD r []).getD c Value.none)

/-- Model of `df.iloc[r, c]`: raises `IndexError` outside `df.shape`. -/
def Grid.iloc (g : Grid) (r c : Nat) : Except String Value :=
  if r < g.nrows ∧ c < g.ncols then .ok (g.cellAt r c)
  else .error "single positional indexer is out-of-bounds"

/-- Model of Python substring containment `sub in s` on strings. -/
def strContains (s sub : String) : Bool :=
  sub = "" || (s.splitOn sub).length ≥ 2

/-- Combined `isinstance(v, str) and sub in v` check used by the label
searches: true only for string cells containing the substring. -/
def valueContainsStr (v : Value) (sub : String) : Bool :=
  match v with
  | .str s => strContains s sub
  | _ => false

/-- Model of Python `v == 1` on a cell value (`True == 1` holds in Python). -/
def pyEqInt1 : Value → Bool
  | .int n => n == 1
  | .bool b => b
  | _ => false

/-- Column letters to 0-based index, `col_to_index` in
`extract_data_by_coordinates`: base-26 value of the letters minus one. -/
def colToIndex (s : String) : Int :=
  (s.data.foldl (fun a c => a * 26 + ((c.toUpper.toNat : Int) - ('A'.toNat : Int) + 1)) 0) - 1

/-- Resolution of a compact cell reference such as `"F-0:11"`, i.e.
`parse_cell_ref`: first column of the range and the 1-based row converted to a
0-based index.  For every reference the sources use, `alt_parse_cell_ref` and
the hand-built direct fallback yield exactly this same (row, column) pair, so
the three-strategy chain collapses to a single lookup. -/
def parseCellRef (startCol : String) (excelRow : Int) : Int × Int :=
  (excelRow - 1, colToIndex startCol)

/-- Model of the nested `get_cell_value` helper: bounds-checked cell read that
returns nothing for out-of-range indices and NaN cells. -/
def get_cell_value (g : Grid) (row col : Int) : Option Value :=
  if row < 0 ∨ (g.nrows : Int) ≤ row ∨ col < 0 ∨ (g.ncols : Int) ≤ col then Option.none
  else
    let v := g.cellAt row.toNat col.toNat
    if pyNotna v then some v else Option.none

/-- Result dictionary of `extract_data_by_coordinates`; a field is `some`
exactly when the corresponding key was added to the Python dict. -/
structure CoordResult where
  model : Option Value := Option.none
  serial_number : Option Value := Option.none
  inspection_date : Option Date := Option.none
  next_inspection_date : Option Date := Option.none
  owner : Option Value := Option.none
  kympitys_date : Option Date := Option.none
deriving DecidableEq, Repr

/-- Conversion of the inspection-date cell in the coordinate path
(`inspection_parser.py` lines 544-573): datetimes pass through; strings with a
dot are parsed as `dd.mm.yyyy` (the `day, month, year = map(int, parts)`
unpack requires exactly three parts, and any `int`/`datetime` failure is
caught, yielding nothing); other strings go to the generic pandas parser,
passed in as `pdParse`; other types yield nothing. -/
def coerceCoordDate (pdParse : String → Option Date) (v : Value) : Option Date :=
  match v with
  | .date d => some d
  | .str s =>
    if s.contains '.' then
      let parts := s.splitOn "."
      if parts.length ≥ 3 then
        if parts.length = 3 then
          match pyParseInt (parts.getD 0 ""), pyParseInt (parts.getD 1 ""),
              pyParseInt (parts.getD 2 "") with
          | some dd, some mm, some yy => (mkDatetime yy mm dd).toOption
          | _, _, _ => Option.none
        else Option.none
      else Option.none
    else pdParse s
  | _ => Option.none

/-- Conversion of a kympitys year/month cell to `int` (`inspection_parser.py`
lines 641-655): numeric cells via `int(x)` (Python `bool` is an `int`),
strings only when non-empty after strip and all digits; otherwise nothing. -/
def pyToIntCell (v : Value) : Option Int :=
  match v with
  | .int n => some n
  | .bool b => some (if b then 1 else 0)
  | .str s =>
    let t := s.trim
    if t ≠ "" ∧ t.all Char.isDigit then pyParseInt t else Option.none
  | _ => Option.none

/-- Kympitys date construction (`inspection_parser.py` lines 607-664): read
the year cell `"AB-AD:58"` and month cell `"Y-Z:58"` (all three reference
interpretations resolve to row 57, columns 27 and 24), convert both to `int`,
and build `datetime(year, month, 1)` only when both are truthy and the month
is in 1..12; a `ValueError` from `datetime` is caught locally, yielding
nothing. -/
def extractKympitys (g : Grid) : Option Date :=
  let yrc := parseCellRef "AB" 58
  let mrc := parseCellRef "Y" 58
  match get_cell_value g yrc.1 yrc.2, get_cell_value g mrc.1 mrc.2 with
  | some yearCell, some monthCell =>
    match pyToIntCell yearCell, pyToIntCell monthCell with
    | some y, some m =>
      if y ≠ 0 ∧ m ≠ 0 ∧ 1 ≤ m ∧ m ≤ 12 then (mkDatetime y m 1).toOption
      else Option.none
    | _, _ => Option.none
  | _, _ => Option.none

/-- The coordinate extraction `extract_data_by_coordinates`: model from
`"F-0:11"` (row 10, col 5), serial from `"G-0:12"` (row 11, col 6), inspection
date from `"AD-AG:6"` (row 5, col 29), owner from `"Y-AB:6"` (row 5, col 24),
kympitys as above.  When an inspection date is found, the next inspection date
is `inspection_date.replace(year + 1, day := 1)`; this `replace` is not inside
any local `try`, so its `ValueError` propagates out of the function. -/
def extract_data_by_coordinates (pdParse : String → Option Date) (g : Grid) :
    Except String CoordResult :=
  let mrc := parseCellRef "F" 11
  let model := get_cell_value g mrc.1 mrc.2
  let src := parseCellRef "G" 12
  let serial := get_cell_value g src.1 src.2
  let drc := parseCellRef "AD" 6
  let dateCell := get_cell_value g drc.1 drc.2
  let orc := parseCellRef "Y" 6
  let owner := get_cell_value g orc.1 orc.2
  let inspDate := match dateCell with
    | some v => coerceCoordDate pdParse v
    | Option.none => Option.none
  match inspDate with
  | some d =>
    match dateReplace d (d.year + 1) 1 with
    | .error e => .error e
    | .ok nd =>
      .ok { model := model, serial_number := serial, inspection_date := some d,
            next_inspection_date := some nd, owner := owner,
            kympitys_date := extractKympitys g }
  | Option.none =>
    .ok { model := model, serial_number := serial, owner := owner,
          kympitys_date := extractKympitys g }

/-- The inspection-type lookup `_extract_inspection_type`: probe column 18 of
rows 0..2 with no bounds check (`df.iloc[i, 18]` raises `IndexError` when the
sheet is too small), defaulting to `"Määräaikaistarkastus"` when all three
cells are NA. -/
def extract_inspection_type (g : Grid) : Except String Value := do
  let v0 ← g.iloc 0 18
  if pyNotna v0 then return v0
  let v1 ← g.iloc 1 18
  if pyNotna v1 then return v1
  let v2 ← g.iloc 2 18
  if pyNotna v2 then return v2
  return Value.str "Määräaikaistarkastus"

/-- Label search of `_extract_inspection_date`: scan rows 5..9 for a
`"Paikka ja pvm"` string in column 16 (the read of column 16 is only
row-guarded, so it can raise) and on the first hit read column 18 (fully
guarded), then stop. -/
def findPaikkaAux (g : Grid) : List Nat → Except String (Option Value)
  | [] => .ok Option.none
  | r :: rest =>
    if r < g.nrows then do
      let v ← g.iloc r 16
      if pyNotna v ∧ valueContainsStr v "Paikka ja pvm" then
        if 18 < g.ncols ∧ pyNotna (g.cellAt r 18) then .ok (some (g.cellAt r 18))
        else .ok Option.none
      else findPaikkaAux g rest
    else findPaikkaAux g rest

/-- Date parsing of `_extract_inspection_date` (lines 161-187): falsy cells
yield nothing; datetimes pass through; strings are split on `'/'` (a parse is
attempted only when a slash is present), the first segment stripped and
parsed as `dd.mm.yyyy` with the same exactly-three-parts unpack, failures
caught. -/
def parseLabelDate (v : Value) : Option Date :=
  if pyTruthy v = false then Option.none
  else match v with
  | .date d => some d
  | .str s =>
    let parts := s.splitOn "/"
    if parts.length ≥ 2 then
      let datePart := (parts.getD 0 "").trim
      if datePart.contains '.' then
        let dps := datePart.splitOn "."
        if dps.length ≥ 3 then
          if dps.length = 3 then
            match pyParseInt (dps.getD 0 ""), pyParseInt (dps.getD 1 ""),
                pyParseInt (dps.getD 2 "") with
            | some dd, some mm, some yy => (mkDatetime yy mm dd).toOption
            | _, _, _ => Option.none
          else Option.none
        else Option.none
      else Option.none
    else Option.none
  | _ => Option.none

/-- Label search of `_extract_next_inspection_date`: scan the last ten rows
for `"Seuraava määräaikaistarkastus"` in column 15 (fully bounds-guarded) and
on the first hit read a datetime from column 18, then stop. -/
def extractNextInspAux (g : Grid) : List Int → Option Date
  | [] => Option.none
  | r :: rest =>
    if 0 ≤ r ∧ r < (g.nrows : Int) ∧ 15 < g.ncols ∧ pyNotna (g.cellAt r.toNat 15) then
      if valueContainsStr (g.cellAt r.toNat 15) "Seuraava määräaikaistarkastus" then
        if 18 < g.ncols ∧ pyNotna (g.cellAt r.toNat 18) then
          match g.cellAt r.toNat 18 with
          | .date d => some d
          | _ => Option.none
        else Option.none
      else extractNextInspAux g rest
    else extractNextInspAux g rest

/-- Device-info block of `_extract_device_info` as a record of field values
(`Value.none` where the source leaves the dict entry as `None`). -/
structure DeviceInfo where
  manufacturer : Value := .none
  model : Value := .none
  serial_number : Value := .none
  owner : Value := .none
  owner_address : Value := .none
deriving DecidableEq, Repr

/-- Fully guarded single-cell read used inside the device-info block. -/
def guardedCell (g : Grid) (r c : Nat) : Value :=
  if r < g.nrows ∧ c < g.ncols ∧ pyNotna (g.cellAt r c) then g.cellAt r c else .none

/-- Label search of `_extract_device_info`: scan rows 10..19 for the section
header `"NOSTIMEN PERUSTIEDOT"` in column 0 (the column-0 read is only
row-guarded, so it can raise) and read the five fields at fixed offsets with
full guards, then stop. -/
def extractDeviceInfoAux (g : Grid) : List Nat → Except String DeviceInfo
  | [] => .ok {}
  | r :: rest =>
    if r < g.nrows then do
      let v ← g.iloc r 0
      if pyNotna v ∧ valueContainsStr v "NOSTIMEN PERUSTIEDOT" then
        .ok { manufacturer := guardedCell g (r + 1) 18, model := guardedCell g (r + 2) 2,
              serial_number := guardedCell g (r + 3) 2, owner := guardedCell g (r + 2) 18,
              owner_address := guardedCell g (r + 3) 18 }
      else extractDeviceInfoAux g rest
    else extractDeviceInfoAux g rest

/-- Result decoding at the row after the `"PUUTTEET JA HUOMAUTUKSET"` header:
a one-hot `1` in column 0/1/2, else free text in column 15 (the substring
checks are in source order, so the `"käyttökunnossa"` test also catches
`"ei ole käyttökunnossa"`). -/
def inspResultAt (g : Grid) (rr : Nat) : Option String :=
  if rr < g.nrows then
    if 0 < g.ncols ∧ pyNotna (g.cellAt rr 0) ∧ pyEqInt1 (g.cellAt rr 0) then
      some "Käyttökunnossa"
    else if 1 < g.ncols ∧ pyNotna (g.cellAt rr 1) ∧ pyEqInt1 (g.cellAt rr 1) then
      some "Korjattava"
    else if 2 < g.ncols ∧ pyNotna (g.cellAt rr 2) ∧ pyEqInt1 (g.cellAt rr 2) then
      some "Ei käyttökunnossa"
    else if 15 < g.ncols ∧ pyNotna (g.cellAt rr 15) then
      let txt := pyStr (g.cellAt rr 15)
      if strContains txt "käyttökunnossa" then some "Käyttökunnossa"
      else if strContains txt "korjattava" then some "Korjattava"
      else if strContains txt "ei ole käyttökunnossa" then some "Ei käyttökunnossa"
      else Option.none
    else Option.none
  else Option.none

/-- Label search of `_extract_inspection_result`: scan the last thirty rows
for the section header in column 0 (the column-0 read is only row-guarded, so
it can raise), decode the following row, then stop. -/
def extractInspResultAux (g : Grid) : List Int → Except String (Option String)
  | [] => .ok Option.none
  | r :: rest =>
    if 0 ≤ r ∧ r < (g.nrows : Int) then do
      let v ← g.iloc r.toNat 0
      if pyNotna v ∧ valueContainsStr v "PUUTTEET JA HUOMAUTUKSET" then
        .ok (inspResultAt g (r.toNat + 1))
      else extractInspResultAux g rest
    else extractInspResultAux g rest

/-- A parsed inspection file, i.e. the result dictionary of
`extract_data_from_inspection_file` and the input of the reconciler.  A field
holds `Value.none` / `Option.none` both when the key is absent and when the
dict value is `None`, matching `data.get` semantics; only `error` needs
key-presence (`"error" in data`), which `Option` captures. -/
structure PyRecord where
  inspection_type : Value := .none
  inspection_date : Option Date := Option.none
  next_inspection_date : Option Date := Option.none
  kympitys_date : Option Date := Option.none
  manufacturer : Value := .none
  model : Value := .none
  serial_number : Value := .none
  owner : Value := .none
  owner_address : Value := .none
  inspection_result : Value := .none
  filename : String := ""
  error : Option String := Option.none
deriving DecidableEq, Repr

/-- Lift the optional inspection-result string to a field value. -/
def optStrToValue : Option String → Value
  | some s => .str s
  | Option.none => .none

/-- The `try`-block body of `extract_data_from_inspection_file`: run the
coordinate extraction, judge it successful when any of model, serial number
or inspection date was found, and otherwise fall back to the label-based
extractors; both branches also run the unguarded inspection-type lookup.
Exceptions escaping any step are the `Except.error` results. -/
def extractBody (pdParse : String → Option Date) (filename : String) (g : Grid) :
    Except String PyRecord := do
  let coord ← extract_data_by_coordinates pdParse g
  let hasValid := coord.model.isSome || coord.serial_number.isSome ||
    coord.inspection_date.isSome
  if hasValid then
    let itype ← extract_inspection_type g
    return { inspection_type := itype, inspection_date := coord.inspection_date,
             next_inspection_date := coord.next_inspection_date,
             kympitys_date := coord.kympitys_date,
             model := coord.model.getD .none,
             serial_number := coord.serial_number.getD .none,
             owner := coord.owner.getD .none, filename := filename }
  else
    let itype ← extract_inspection_type g
    let dcell ← findPaikkaAux g [5, 6, 7, 8, 9]
    let idate := match dcell with
      | some v => parseLabelDate v
      | Option.none => Option.none
    let nextd := extractNextInspAux g ((List.range 10).map (fun i => (g.nrows : Int) - 10 + i))
    let dinfo ← extractDeviceInfoAux g [10, 11, 12, 13, 14, 15, 16, 17, 18, 19]
    let ires ← extractInspResultAux g ((List.range 30).map (fun i => (g.nrows : Int) - 30 + i))
    return { inspection_type := itype, inspection_date := idate,
             next_inspection_date := nextd, manufacturer := dinfo.manufacturer,
             model := dinfo.model, serial_number := dinfo.serial_number,
             owner := dinfo.owner, owner_address := dinfo.owner_address,
             inspection_result := optStrToValue ires, filename := filename }

/-- The whole `extract_data_from_inspection_file`: the catch-all `except`
turns any exception into a record with only `error` and `filename`. -/
def extract_data_from_inspection_file (pdParse : String → Option Date)
    (filename : String) (g : Grid) : PyRecord :=
  match extractBody pdParse filename g with
  | .ok r => r
  | .error e => { filename := filename, error := some e }

/-- Batch loop of `main.py` `_process_files`: each file is extracted
independently and its record appended in input order. -/
def batchExtract (pdParse : String → Option Date) (files : List (String × Grid)) :
    List PyRecord :=
  files.map (fun fg => extract_data_from_inspection_file pdParse fg.1 fg.2)

/-- The registry table, i.e. the DataFrame built in `update_customer_registry`
from the `"Kaikki"` sheet: a header of column names and a list of data rows
aligned with it. -/
structure Table where
  cols : List String
  rows : List (List Value)
deriving DecidableEq, Repr

/-- Index of a column name in the header (first occurrence), used both for
`key in df.columns` membership and for cell addressing. -/
def colIdx : List String → String → Option Nat
  | [], _ => Option.none
  | c0 :: rest, c => if c0 = c then some 0 else (colIdx rest c).map (· + 1)

/-- Model of `row.get(col, default)` on a registry row: the stored cell when
the column exists (NaN-padded if the row is short), the default otherwise. -/
def rowGetD (cols : List String) (row : List Value) (c : String) (dflt : Value) : Value :=
  match colIdx cols c with
  | some j => row.getD j Value.none
  | Option.none => dflt

/-- Row serial as compared by `_find_existing_device`:
`str(row.get("Laitteen sarjanumero", ""))` when the cell is not NA, else `""`. -/
def rowSerial (cols : List String) (row : List Value) : String :=
  let v := rowGetD cols row "Laitteen sarjanumero" (.str "")
  if pyNotna v then pyStr v else ""

/-- Row model as compared by `_find_existing_device`. -/
def rowModel (cols : List String) (row : List Value) : String :=
  let v := rowGetD cols row "Laitteen nimi" (.str "")
  if pyNotna v then pyStr v else ""

/-- Record serial as searched for by `_find_existing_device`:
`str(serial)` when present, `""` when the field is `None`/missing. -/
def serialToFind (r : PyRecord) : String :=
  if r.serial_number ≠ .none then pyStr r.serial_number else ""

/-- Record model as compared by `_find_existing_device`. -/
def modelToFind (r : PyRecord) : String :=
  if r.model ≠ .none then pyStr r.model else ""

/-- The row scan of `_find_existing_device`: on a serial match return the
index unless both models are non-blank and differ, in which case the scan
continues. -/
def findDeviceAux (cols : List String) (sf mf : String) : List (List Value) → Nat → Option Nat
  | [], _ => Option.none
  | row :: rest, i =>
    let rs := rowSerial cols row
    let rm := rowModel cols row
    if rs ≠ "" ∧ sf ≠ "" ∧ rs = sf then
      if rm = "" ∨ mf = "" ∨ rm = mf then some i
      else findDeviceAux cols sf mf rest (i + 1)
    else findDeviceAux cols sf mf rest (i + 1)

/-- The whole `_find_existing_device`: an empty serial never matches, else the
first row that the scan accepts. -/
def find_existing_device (t : Table) (r : PyRecord) : Option Nat :=
  let sf := serialToFind r
  if sf = "" then Option.none
  else findDeviceAux t.cols sf (modelToFind r) t.rows 0

/-- Date field formatted for display, `strftime("%d.%m.%Y")` on a present
date, `None` otherwise. -/
def fmtOptDate (d : Option Date) : Value :=
  match d with
  | some dd => .str (fmtDateDDMMYYYY dd)
  | Option.none => .none

/-- The `new_data` dictionary of `_process_inspection_data` in
`registry_updater.py` (the executed version, which formats all three dates
with `"%d.%m.%Y"`), in source key order. -/
def newDataPairs (r : PyRecord) : List (String × Value) :=
  [("Aktiivinen", .bool true),
   ("Tilaaja", r.owner),
   ("Tilaajan laite", .none),
   ("Laitteen nimi", r.model),
   ("Laitteen sarjanumero", r.serial_number),
   ("Tarkastettu", fmtOptDate r.inspection_date),
   ("Seuraava tarkastus", fmtOptDate r.next_inspection_date),
   ("Seuraava kympitys", fmtOptDate r.kympitys_date),
   ("Huollettu/korjattu", .none),
   ("Työmaa", r.owner),
   ("Lisätieto", .none),
   ("Verkkolaskutus1", .none),
   ("Verkkolaskutus2", .none),
   ("Maksuehto", .none),
   ("Tarkastuspöytäkirja", .str r.filename)]

/-- Sequential `df.at[idx, key] = value` / `new_row[key] = value` writes:
every pair whose key is a table column overwrites that cell, other pairs are
skipped (`if key in df.columns` / `if key in new_row`). -/
def applyPairs (cols : List String) (row : List Value) : List (String × Value) → List Value
  | [] => row
  | (k, v) :: rest =>
    applyPairs cols
      (match colIdx cols k with
       | some j => row.set j v
       | Option.none => row) rest

/-- Update branch of `_process_inspection_data`: overwrite the matched row's
cells for every `new_data` key that is a column of the table. -/
def updateRow (t : Table) (i : Nat) (r : PyRecord) : Table :=
  { t with rows := t.rows.set i (applyPairs t.cols (t.rows.getD i []) (newDataPairs r)) }

/-- Insert branch of `_process_inspection_data`: a fresh row with every
existing column `None`, overlaid with the `new_data` values for columns that
exist; `pd.concat` appends it. -/
def newRowFor (t : Table) (r : PyRecord) : List Value :=
  applyPairs t.cols (t.cols.map (fun _ => Value.none)) (newDataPairs r)

/-- One processing-result record (`processed_records` entry). -/
structure ResultRec where
  status : String
  message : Option String := Option.none
  serial_number : Value := .none
  model : Value := .none
  owner : Value := .none
  filename : String := ""
deriving DecidableEq, Repr

/-- Echoed result record for a merged (updated/added) inspection record. -/
def mergedResult (status : String) (r : PyRecord) : ResultRec :=
  { status := status, serial_number := r.serial_number, model := r.model,
    owner := r.owner, filename := r.filename }

/-- Effect of one iteration of the `_process_inspection_data` loop on the
local `df_existing` variable: error records are only reported; otherwise the
device is looked up and the row updated in place or a fresh row appended. -/
def processOne (t : Table) (r : PyRecord) : Table × ResultRec :=
  match r.error with
  | some e => (t, { status := "Error", message := some e, filename := r.filename })
  | Option.none =>
    match find_existing_device t r with
    | some i => (updateRow t i r, mergedResult "Updated" r)
    | Option.none => ({ t with rows := t.rows ++ [newRowFor t r] }, mergedResult "Added" r)

/-- One iteration of the loop in the `inspection_parser.py` copy of
`_process_inspection_data` (lines 677-797).  This copy, which the running code
never calls, additionally rejects records with none of model, serial number
and inspection date before merging, and formats the next-inspection and
kympitys dates with `"1.%m.%Y"`. -/
def processOneParserCopy (t : Table) (r : PyRecord) : Table × ResultRec :=
  match r.error with
  | some e => (t, { status := "Error", message := some e, filename := r.filename })
  | Option.none =>
    if pyTruthy r.model = false ∧ pyTruthy r.serial_number = false ∧
        r.inspection_date = Option.none then
      (t, { status := "Error",
            message := some "Extraction failed: No meaningful data found in the file",
            filename := r.filename })
    else
      match find_existing_device t r with
      | some i => (updateRow t i r, mergedResult "Updated" r)
      | Option.none => ({ t with rows := t.rows ++ [newRowFor t r] }, mergedResult "Added" r)

/-- Object state of the DataFrame during `_process_inspection_data`:
`localTable` is what the local name `df_existing` refers to, `origTable` is
the caller's DataFrame object.  Initially the two are the same object
(`aliased`); `df.at[...]` mutates the shared object in place, but the insert
branch rebinds the local name to the fresh `pd.concat` result, after which
the caller's object no longer sees any change. -/
structure ProcState where
  localTable : Table
  origTable : Table
  aliased : Bool
deriving DecidableEq, Repr

/-- One loop iteration of `_process_inspection_data` with the aliasing of the
caller's DataFrame made explicit. -/
def processStep (s : ProcState) (r : PyRecord) : ProcState × ResultRec :=
  match r.error with
  | some e => (s, { status := "Error", message := some e, filename := r.filename })
  | Option.none =>
    match find_existing_device s.localTable r with
    | some i =>
      let t' := updateRow s.localTable i r
      ({ localTable := t', origTable := if s.aliased then t' else s.origTable,
         aliased := s.aliased }, mergedResult "Updated" r)
    | Option.none =>
      ({ localTable := { s.localTable with
           rows := s.localTable.rows ++ [newRowFor s.localTable r] },
         origTable := s.origTable, aliased := false }, mergedResult "Added" r)

/-- The loop of `_process_inspection_data` over all records. -/
def processAll (s : ProcState) : List PyRecord → ProcState × List ResultRec
  | [] => (s, [])
  | r :: rest =>
    let sr := processStep s r
    let tail := processAll sr.1 rest
    (tail.1, sr.2 :: tail.2)

/-- The whole `_process_inspection_data` called on the caller's DataFrame:
initially the local name aliases the caller's object. -/
def process_inspection_data (t : Table) (records : List PyRecord) :
    ProcState × List ResultRec :=
  processAll { localTable := t, origTable := t, aliased := true } records

/-- Model of `df.empty`: true when the table has no rows or no columns. -/
def tableEmpty (t : Table) : Bool :=
  t.rows.length = 0 ∨ t.cols.length = 0

/-- Guard at the head of `_save_updated_registry_with_full_preservation`
(before its `try`): writing an empty DataFrame raises `ValueError`; otherwise
the data region of the sheet is overwritten with exactly the table's header
and rows, which the model returns as the written table. -/
def saveRegistry (t : Table) : Except String Table :=
  if tableEmpty t then .error "DataFrame is empty, no data to save"
  else .ok t

/-- Output path constant (`config.OUTPUT_FILE`). -/
def OUTPUT_FILE_NAME : String := "Asiakasrekisteri_updated.xlsx"

/-- Outcome of `update_customer_registry`: returned output path (empty string
on failure), returned result records, and the table written to the output
file, if any. -/
structure RunOutcome where
  outputPath : String
  results : List ResultRec
  savedTable : Option Table
deriving DecidableEq, Repr

/-- The synthetic single error result used for run-level failures. -/
def runErrorResult (msg : String) : ResultRec :=
  { status := "Error", message := some msg, filename := "N/A" }

/-- `update_customer_registry` from the point where the registry sheet has
been loaded into a DataFrame: process the records against the caller's
DataFrame, fail with a single synthetic error when it is empty afterwards,
otherwise save the caller's DataFrame (any save exception is caught and
reported as a single synthetic error). -/
def update_customer_registry (t : Table) (records : List PyRecord) : RunOutcome :=
  let pr := process_inspection_data t records
  if tableEmpty pr.1.origTable then
    { outputPath := "",
      results := [runErrorResult "No data to save in registry. DataFrame is empty after processing."],
      savedTable := Option.none }
  else
    match saveRegistry pr.1.origTable with
    | .ok written =>
      { outputPath := OUTPUT_FILE_NAME, results := pr.2, savedTable := some written }
    | .error e =>
      { outputPath := "", results := [runErrorResult ("Failed to update registry: " ++ e)],
        savedTable := Option.none }

/-! ## Concrete fixtures used by the claim theorems and witnesses -/

/-- The registry column set of the `"Kaikki"` sheet. -/
def stdCols : List String :=
  ["Aktiivinen", "Tilaaja", "Tilaajan laite", "Laitteen nimi", "Laitteen sarjanumero",
   "Tarkastettu", "Seuraava tarkastus", "Seuraava kympitys", "Huollettu/korjattu",
   "Työmaa", "Lisätieto", "Verkkolaskutus1", "Verkkolaskutus2", "Maksuehto",
   "Tarkastuspöytäkirja"]

/-- A registry row for device SN001 with a free-text note and some history. -/
def row1 : List Value :=
  [.bool true, .str "Acme", .none, .str "CraneX", .str "SN001",
   .str "01.01.2020", .str "01.01.2021", .none, .none,
   .str "Acme", .str "muistiinpano", .none, .none, .none, .str "old.xlsx"]

/-- A one-row registry table. -/
def T1 : Table := ⟨stdCols, [row1]⟩

/-- An empty registry table over the standard columns. -/
def T0 : Table := ⟨stdCols, []⟩

/-- An inspection record whose serial `"SN999"` matches no registry row. -/
def rNew : PyRecord :=
  { model := .str "LiftY", serial_number := .str "SN999",
    inspection_date := some ⟨2024, 5, 17⟩, next_inspection_date := some ⟨2025, 5, 1⟩,
    owner := .str "Beta", filename := "new.xlsx" }

/-- An inspection record matching the SN001 row of `T1`. -/
def rUpd : PyRecord :=
  { model := .str "CraneX", serial_number := .str "SN001",
    inspection_date := some ⟨2024, 5, 17⟩, owner := .str "Acme2", filename := "u.xlsx" }

/-- A record for SN001 carrying only the serial number (no model, owner or
dates extracted). -/
def rNote : PyRecord :=
  { serial_number := .str "SN001", filename := "n.xlsx" }

/-- A record from a file whose extraction found nothing at all: no error key
and none of model, serial number and inspection date. -/
def rEmpty : PyRecord := { filename := "tyhja.xlsx" }

/-- The external pandas string-date parser instantiated to finding nothing. -/
def pdParse0 : String → Option Date := fun _ => Option.none

/-- A one-cell inspection sheet (1 row, 1 column). -/
def G1 : Grid := ⟨[[.int 1]]⟩

/-- A 12-row, 7-column inspection sheet whose coordinate cells for model
(row 10, col 5) and serial number (row 11, col 6) hold usable data. -/
def G2 : Grid := ⟨(List.range 12).map (fun r =>
  if r = 10 then [.none, .none, .none, .none, .none, .str "LiftX", .none]
  else if r = 11 then [.none, .none, .none, .none, .none, .none, .str "SN1"]
  else List.replicate 7 Value.none)⟩

/-- A 6-row, 30-column sheet with a datetime in the inspection-date cell
(row 5, col 29). -/
def G8 : Grid := ⟨(List.range 6).map (fun r =>
  if r = 5 then (List.replicate 29 Value.none) ++ [.date ⟨2024, 5, 17⟩]
  else [])⟩

/-- A 58-row, 28-column sheet whose kympitys year cell (row 57, col 27) holds
the integer 0 and whose month cell (row 57, col 24) holds 6. -/
def G9 : Grid := ⟨(List.range 58).map (fun r =>
  if r = 57 then (List.replicate 24 Value.none) ++ [.int 6] ++
    (List.replicate 2 Value.none) ++ [.int 0]
  else [])⟩

/-- Like `G9` but with year 2025 in the kympitys year cell. -/
def G9b : Grid := ⟨(List.range 58).map (fun r =>
  if r = 57 then (List.replicate 24 Value.none) ++ [.int 6] ++
    (List.replicate 2 Value.none) ++ [.int 2025]
  else [])⟩

/-! ## Claim theorems -/

/-- C1: for a record whose serial matches no row the claim asserts that the
saved output table has the original row count plus one.  The code does report
status `"Added"` and appends the row to the reconciler's local DataFrame, but
`pd.concat` rebinds only the local name inside `_process_inspection_data`, so
the caller's DataFrame — the one `update_customer_registry` saves — is
unchanged: the run on the one-row registry `T1` with the unmatched record
`rNew` returns status `"Added"` while the saved table is still `T1` with one
row (the appended row, with its untouched column null, exists only in the
discarded local table). -/
theorem c1_added_row_lost_on_save :
    (update_customer_registry T1 [rNew]).results.map (fun x => x.status) = ["Added"]
    ∧ (update_customer_registry T1 [rNew]).savedTable = some T1
    ∧ T1.rows.length = 1
    ∧ (process_inspection_data T1 [rNew]).1.localTable.rows.length = 2
    ∧ rowGetD stdCols ((process_inspection_data T1 [rNew]).1.localTable.rows.getD 1 [])
        "Lisätieto" .none = Value.none := by decide

/-- C2: for a record with no `error` field and all of model, serial number
and inspection date missing, the claim asserts a single Error result
("Extraction failed: no meaningful data") and no merge.  The executed
reconciler (`_process_inspection_data` in `registry_updater.py`) has no such
check: on the one-row registry `T1` the empty record `rEmpty` is merged as an
insert with status `"Added"`, growing the local table.  The check only exists
in the never-called copy of the function in `inspection_parser.py`
(`processOneParserCopy`), which does produce exactly the claimed Error result
and leaves the table unchanged. -/
theorem c2_empty_record_added_not_error :
    (update_customer_registry T1 [rEmpty]).results.map (fun x => x.status) = ["Added"]
    ∧ (processOne T1 rEmpty).2.status = "Added"
    ∧ (processOne T1 rEmpty).1.rows.length = T1.rows.length + 1
    ∧ (processOneParserCopy T1 rEmpty).1 = T1
    ∧ (processOneParserCopy T1 rEmpty).2 =
        { status := "Error",
          message := some "Extraction failed: No meaningful data found in the file",
          filename := "tyhja.xlsx" } := by decide

/-- C9 counterexample: the claim asserts a kympitys date is produced exactly
when the month converts to an integer in 1..12 and the year converts to an
integer.  On `G9` the year cell converts to the integer 0 and the month cell
to 6 ∈ 1..12, yet no kympitys date is produced (the truthiness guard
`if year and month` drops year 0), refuting the claimed equivalence. -/
theorem c9_counterexample_year_zero :
    pyToIntCell (Value.int 0) = some 0
    ∧ pyToIntCell (Value.int 6) = some 6
    ∧ (1 ≤ (6 : Int) ∧ (6 : Int) ≤ 12)
    ∧ get_cell_value G9 57 27 = some (Value.int 0)
    ∧ get_cell_value G9 57 24 = some (Value.int 6)
    ∧ extractKympitys G9 = Option.none := by decide

/-- C6: any exception in the extraction body is caught per file and degraded
to a record whose only populated fields are `error` and `filename` (all other
fields remain at their missing defaults), and in the batch loop such a file
contributes exactly its own error record, leaving the records of all files
before and after it untouched. -/
theorem c6_extraction_error_contained (pdParse : String → Option Date)
    (fn : String) (g : Grid) (e : String)
    (h : extractBody pdParse fn g = .error e) :
    extract_data_from_inspection_file pdParse fn g =
      { filename := fn, error := some e }
    ∧ ∀ pre post : List (String × Grid),
        batchExtract pdParse (pre ++ (fn, g) :: post) =
          batchExtract pdParse pre ++
            ({ filename := fn, error := some e } : PyRecord) :: batchExtract pdParse post := by
  have h1 : extract_data_from_inspection_file pdParse fn g =
      { filename := fn, error := some e } := by
    unfold extract_data_from_inspection_file
    rw [h]
  refine ⟨h1, fun pre post => ?_⟩
  unfold batchExtract
  rw [List.map_append, List.map_cons]
  rw [show extract_data_from_inspection_file pdParse (fn, g).1 (fn, g).2 =
    ({ filename := fn, error := some e } : PyRecord) from h1]

/-- Witness for C6: the 1×1 sheet `G1` makes the body raise the pandas
IndexError, and the extractor returns the contained error record. -/
theorem c6_witness :
    extractBody pdParse0 "a.xlsx" G1 =
      .error "single positional indexer is out-of-bounds"
    ∧ extract_data_from_inspection_file pdParse0 "a.xlsx" G1 =
      { filename := "a.xlsx", error := some "single positional indexer is out-of-bounds" } :=
  ⟨by rfl,
   (c6_extraction_error_contained pdParse0 "a.xlsx" G1 _ (by rfl)).1⟩

/-- An `iloc` read of a column at or beyond the sheet width raises. -/
theorem iloc_col_oob (g : Grid) (r c : Nat) (h : g.ncols ≤ c) :
    g.iloc r c = .error "single positional indexer is out-of-bounds" := by
  unfold Grid.iloc
  rw [if_neg]
  rintro ⟨-, hc⟩
  omega

/-- On a sheet of at most 18 columns the inspection-type lookup raises at its
very first probe `df.iloc[0, 18]`. -/
theorem extract_inspection_type_narrow (g : Grid) (h : g.ncols ≤ 18) :
    extract_inspection_type g = .error "single positional indexer is out-of-bounds" := by
  unfold extract_inspection_type
  rw [iloc_col_oob g 0 18 h]
  rfl

/-- A bounds-checked cell read of a column at or beyond the sheet width
yields nothing. -/
theorem get_cell_value_col_oob (g : Grid) (row col : Int) (h : (g.ncols : Int) ≤ col) :
    get_cell_value g row col = Option.none := by
  unfold get_cell_value
  rw [if_pos]
  exact Or.inr (Or.inr (Or.inr h))

/-- On a sheet of at most 18 columns the kympitys cells (columns 27 and 24)
are out of range, so no kympitys date is produced. -/
theorem extractKympitys_narrow (g : Grid) (h : g.ncols ≤ 18) :
    extractKympitys g = Option.none := by
  have e1 : parseCellRef "AB" 58 = ((57 : Int), (27 : Int)) := by decide
  have h27 : get_cell_value g 57 27 = Option.none :=
    get_cell_value_col_oob g 57 27 (by omega)
  unfold extractKympitys
  rw [e1]
  simp only []
  rw [h27]

/-- On a sheet of at most 18 columns the coordinate extraction cannot raise:
the inspection-date cell (column 29) is out of range, so only model and
serial number can be found. -/
theorem extract_coords_narrow (pdParse : String → Option Date) (g : Grid)
    (h : g.ncols ≤ 18) :
    extract_data_by_coordinates pdParse g =
      .ok { model := get_cell_value g 10 5, serial_number := get_cell_value g 11 6 } := by
  have eF : parseCellRef "F" 11 = ((10 : Int), (5 : Int)) := by decide
  have eG : parseCellRef "G" 12 = ((11 : Int), (6 : Int)) := by decide
  have eAD : parseCellRef "AD" 6 = ((5 : Int), (29 : Int)) := by decide
  have eY : parseCellRef "Y" 6 = ((5 : Int), (24 : Int)) := by decide
  have h29 : get_cell_value g 5 29 = Option.none :=
    get_cell_value_col_oob g 5 29 (by omega)
  have h24 : get_cell_value g 5 24 = Option.none :=
    get_cell_value_col_oob g 5 24 (by omega)
  unfold extract_data_by_coordinates
  rw [eF, eG, eAD, eY]
  simp only []
  rw [h29, h24, extractKympitys_narrow g h]

/-- C10: on every sheet with at least one row and at most 18 columns — even
when the coordinate cells for model and serial number hold usable data — the
inspection-type lookup's unchecked `df.iloc[_, 18]` read raises in both the
coordinate and the fallback branch, and the whole file degrades to a record
with only `error` and `filename`. -/
theorem c10_narrow_sheet_always_errors (pdParse : String → Option Date)
    (fn : String) (g : Grid) (h1 : 1 ≤ g.nrows) (h2 : g.ncols ≤ 18) :
    extract_data_from_inspection_file pdParse fn g =
      { filename := fn, error := some "single positional indexer is out-of-bounds" } := by
  have hb : extractBody pdParse fn g =
      .error "single positional indexer is out-of-bounds" := by
    unfold extractBody
    rw [extract_coords_narrow pdParse g h2]
    show (if _ then _ else _ : Except String PyRecord) = _
    split
    · rw [extract_inspection_type_narrow g h2]
      rfl
    · rw [extract_inspection_type_narrow g h2]
      rfl
  unfold extract_data_from_inspection_file
  rw [hb]

/-- Witness for C10: `G2` has 12 rows and 7 columns with usable model and
serial data in the coordinate cells, yet extraction returns only an error. -/
theorem c10_witness :
    1 ≤ G2.nrows ∧ G2.ncols ≤ 18
    ∧ get_cell_value G2 10 5 = some (Value.str "LiftX")
    ∧ get_cell_value G2 11 6 = some (Value.str "SN1")
    ∧ extract_data_from_inspection_file pdParse0 "b.xlsx" G2 =
      { filename := "b.xlsx", error := some "single positional indexer is out-of-bounds" } :=
  ⟨by decide, by decide, by decide, by decide,
   c10_narrow_sheet_always_errors pdParse0 "b.xlsx" G2 (by decide) (by decide)⟩

/-- With an empty column set every row reads back an empty serial, so the
device scan never accepts a row. -/
theorem findDeviceAux_nil_cols (sf mf : String) :
    ∀ (rows : List (List Value)) (i : Nat), findDeviceAux [] sf mf rows i = Option.none := by
  intro rows
  induction rows with
  | nil => intro i; rfl
  | cons row rest ih =>
    intro i
    unfold findDeviceAux
    have hrs : rowSerial [] row = "" := rfl
    rw [hrs]
    simp only [ne_eq, not_true_eq_false, false_and, if_false]
    exact ih (i + 1)

/-- An empty registry table (no rows or no columns) never matches a device. -/
theorem find_empty (t : Table) (r : PyRecord) (h : tableEmpty t = true) :
    find_existing_device t r = Option.none := by
  unfold find_existing_device
  dsimp only
  split
  · rfl
  · simp only [tableEmpty, Bool.decide_eq_true, decide_eq_true_eq] at h
    rcases h with h0 | h0
    · rw [List.length_eq_zero.mp h0]
      rfl
    · rw [List.length_eq_zero.mp h0]
      exact findDeviceAux_nil_cols _ _ _ _

/-- One processing step keeps the caller's empty DataFrame untouched and
keeps the alias invariant. -/
theorem processStep_empty_invariant (s : ProcState) (r : PyRecord) (t : Table)
    (ht : tableEmpty t = true) (h1 : s.origTable = t)
    (h2 : s.aliased = true → s.localTable = t) :
    (processStep s r).1.origTable = t
    ∧ ((processStep s r).1.aliased = true → (processStep s r).1.localTable = t) := by
  unfold processStep
  cases herr : r.error with
  | some e => exact ⟨h1, h2⟩
  | none =>
    cases hf : find_existing_device s.localTable r with
    | none => exact ⟨h1, fun hx => absurd hx (by simp)⟩
    | some i =>
      cases hal : s.aliased with
      | false => refine ⟨by simpa [hal] using h1, fun hx => absurd hx (by simp [hal])⟩
      | true =>
        exfalso
        rw [h2 hal, find_empty t r ht] at hf
        exact Option.noConfusion hf

/-- Processing any record list against an empty caller DataFrame leaves the
caller's object untouched. -/
theorem processAll_origTable_of_empty (t : Table) (ht : tableEmpty t = true) :
    ∀ (rs : List PyRecord) (s : ProcState), s.origTable = t →
      (s.aliased = true → s.localTable = t) →
      (processAll s rs).1.origTable = t := by
  intro rs
  induction rs with
  | nil => intro s h1 _; exact h1
  | cons r rest ih =>
    intro s h1 h2
    have hstep := processStep_empty_invariant s r t ht h1 h2
    unfold processAll
    exact ih (processStep s r).1 hstep.1 hstep.2

/-- C7: the registry writer raises a hard `ValueError` on every empty table,
and the surrounding run detects the empty DataFrame first, reporting a single
synthetic Error instead of saving; consequently no saved table is ever
empty. -/
theorem c7_never_write_empty (t : Table) (records : List PyRecord) :
    (tableEmpty t = true →
      saveRegistry t = .error "DataFrame is empty, no data to save"
      ∧ update_customer_registry t records =
        { outputPath := "",
          results := [runErrorResult
            "No data to save in registry. DataFrame is empty after processing."],
          savedTable := Option.none })
    ∧ ∀ t', (update_customer_registry t records).savedTable = some t' →
        tableEmpty t' = false := by
  constructor
  · intro ht
    constructor
    · unfold saveRegistry
      rw [if_pos ht]
    · have ho : (process_inspection_data t records).1.origTable = t :=
        processAll_origTable_of_empty t ht records _ rfl (fun _ => rfl)
      unfold update_customer_registry
      dsimp only
      rw [ho, if_pos ht]
  · intro t' h
    unfold update_customer_registry at h
    dsimp only at h
    split at h
    · exact Option.noConfusion h
    · rename_i hne
      unfold saveRegistry at h
      rw [if_neg hne] at h
      simp only [Option.some.injEq] at h
      rw [← h]
      exact Bool.eq_false_iff.mpr hne

/-- Witness for C7: the empty registry `T0` makes the writer raise and the
run report a single Error without saving. -/
theorem c7_witness :
    saveRegistry T0 = .error "DataFrame is empty, no data to save"
    ∧ update_customer_registry T0 [rNew] =
      { outputPath := "",
        results := [runErrorResult
          "No data to save in registry. DataFrame is empty after processing."],
        savedTable := Option.none } :=
  (c7_never_write_empty T0 [rNew]).1 (by decide)

/-- A successful `datetime` construction returns exactly the given triple. -/
theorem mkDatetime_ok (y m d : Int) (dd : Date) (h : mkDatetime y m d = .ok dd) :
    dd = ⟨y, m, d⟩ := by
  unfold mkDatetime at h
  split at h
  · injection h with h'
    exact h'.symm
  · exact Except.noConfusion h

/-- C8: whenever the coordinate extraction finds an inspection date `d`, the
derived next inspection date is the first of `d`'s month one year later:
year `d.year + 1`, month `d.month`, day 1 — not the exact date one year
after `d`. -/
theorem c8_next_date_first_of_month (pdParse : String → Option Date) (g : Grid)
    (res : CoordResult) (d : Date)
    (h1 : extract_data_by_coordinates pdParse g = .ok res)
    (h2 : res.inspection_date = some d) :
    res.next_inspection_date = some ⟨d.year + 1, d.month, 1⟩ := by
  unfold extract_data_by_coordinates at h1
  dsimp only at h1
  split at h1
  · rename_i d' hd'
    unfold dateReplace at h1
    split at h1
    · exact Except.noConfusion h1
    · rename_i nd hnd
      injection h1 with h1'
      rw [← h1'] at h2 ⊢
      simp only [Option.some.injEq] at h2
      rw [mkDatetime_ok _ _ _ _ hnd, h2]
  · rename_i hnone
    injection h1 with h1'
    rw [← h1'] at h2
    exact Option.noConfusion h2

/-- The coordinate-extraction result on the fixture sheet `G8`. -/
def R8 : CoordResult :=
  { inspection_date := some ⟨2024, 5, 17⟩, next_inspection_date := some ⟨2025, 5, 1⟩ }

/-- Witness for C8: on `G8` the inspection date 17.05.2024 yields the next
inspection date 01.05.2025. -/
theorem c8_witness :
    extract_data_by_coordinates pdParse0 G8 = .ok R8
    ∧ R8.next_inspection_date = some ⟨2025, 5, 1⟩ :=
  ⟨by rfl, c8_next_date_first_of_month pdParse0 G8 R8 ⟨2024, 5, 17⟩ (by rfl) (by rfl)⟩

/-- Every month length accepted by the `datetime` validation is at least 1. -/
theorem daysInMonth_ge_one (y m : Int) : 1 ≤ daysInMonth y m := by
  unfold daysInMonth
  split
  · split <;> norm_num
  · split <;> norm_num

/-- Validity of a first-of-month `datetime` reduces to the year and month
being in CPython's accepted ranges. -/
theorem validDate_day_one (y m : Int) :
    validDate y m 1 = true ↔ (1 ≤ y ∧ y ≤ 9999 ∧ 1 ≤ m ∧ m ≤ 12) := by
  have hd := daysInMonth_ge_one y m
  unfold validDate
  simp only [Bool.and_eq_true, decide_eq_true_eq]
  omega

/-- C9 (amended): kympitys date construction yields the first day of month
`m` in year `y` exactly when both cells are present, the month converts to an
integer in 1..12 and the year converts to an integer in 1..9999 (the
truthiness guard silently drops year 0 and `datetime`'s range check silently
drops years outside 1..9999); any produced kympitys date has day 1; and the
construction never raises — a failed construction leaves the rest of the
coordinate record (model, serial number) unaffected. -/
theorem c9_amended_kympitys_characterization (g : Grid) (y m : Int) :
    (extractKympitys g = some ⟨y, m, 1⟩ ↔
      ∃ yc mc : Value,
        get_cell_value g 57 27 = some yc ∧ get_cell_value g 57 24 = some mc
        ∧ pyToIntCell yc = some y ∧ pyToIntCell mc = some m
        ∧ 1 ≤ m ∧ m ≤ 12 ∧ 1 ≤ y ∧ y ≤ 9999)
    ∧ (∀ d : Date, extractKympitys g = some d → d.day = 1)
    ∧ (∀ (pdParse : String → Option Date) (res : CoordResult),
        extract_data_by_coordinates pdParse g = .ok res →
        res.kympitys_date = extractKympitys g
        ∧ res.model = get_cell_value g 10 5
        ∧ res.serial_number = get_cell_value g 11 6) := by
  have e1 : parseCellRef "AB" 58 = ((57 : Int), (27 : Int)) := by decide
  have e2 : parseCellRef "Y" 58 = ((57 : Int), (24 : Int)) := by decide
  have hK : extractKympitys g =
      (match get_cell_value g 57 27, get_cell_value g 57 24 with
      | some yearCell, some monthCell =>
        (match pyToIntCell yearCell, pyToIntCell monthCell with
        | some y', some m' =>
          if y' ≠ 0 ∧ m' ≠ 0 ∧ 1 ≤ m' ∧ m' ≤ 12 then (mkDatetime y' m' 1).toOption
          else Option.none
        | _, _ => Option.none)
      | _, _ => Option.none) := by
    unfold extractKympitys
    dsimp only
    rw [e1, e2]
  refine ⟨⟨?_, ?_⟩, ?_, ?_⟩
  · intro h
    rw [hK] at h
    cases hgy : get_cell_value g 57 27 with
    | none => rw [hgy] at h; exact Option.noConfusion h
    | some yc =>
      cases hgm : get_cell_value g 57 24 with
      | none => rw [hgy, hgm] at h; exact Option.noConfusion h
      | some mc =>
        rw [hgy, hgm] at h
        dsimp only at h
        cases hpy : pyToIntCell yc with
        | none => rw [hpy] at h; exact Option.noConfusion h
        | some y' =>
          cases hpm : pyToIntCell mc with
          | none => rw [hpy, hpm] at h; exact Option.noConfusion h
          | some m' =>
            rw [hpy, hpm] at h
            dsimp only at h
            split at h
            · unfold mkDatetime at h
              split at h
              · rename_i hvalid
                simp only [Except.toOption, Option.some.injEq, Date.mk.injEq] at h
                obtain ⟨hy', hm', -⟩ := h
                rw [hy', hm'] at hvalid
                have hr := (validDate_day_one y m).mp hvalid
                exact ⟨yc, mc, rfl, rfl, by rw [← hy']; exact hpy,
                  by rw [← hm']; exact hpm, hr.2.2.1, hr.2.2.2, hr.1, hr.2.1⟩
              · exact Option.noConfusion h
            · exact Option.noConfusion h
  · rintro ⟨yc, mc, hgy, hgm, hpy, hpm, hm1, hm2, hy1, hy2⟩
    rw [hK, hgy, hgm]
    dsimp only
    rw [hpy, hpm]
    dsimp only
    rw [if_pos ⟨by omega, by omega, hm1, hm2⟩]
    unfold mkDatetime
    rw [if_pos ((validDate_day_one y m).mpr ⟨hy1, hy2, hm1, hm2⟩)]
    rfl
  · intro d h
    rw [hK] at h
    split at h
    · split at h
      · split at h
        · unfold mkDatetime at h
          split at h
          · simp only [Except.toOption, Option.some.injEq] at h
            rw [← h]
          · exact Option.noConfusion h
        · exact Option.noConfusion h
      · exact Option.noConfusion h
    · exact Option.noConfusion h
  · intro pdParse res h
    unfold extract_data_by_coordinates at h
    dsimp only at h
    split at h
    · unfold dateReplace at h
      split at h
      · exact Except.noConfusion h
      · injection h with h'
        rw [← h']
        exact ⟨rfl, rfl, rfl⟩
    · injection h with h'
      rw [← h']
      exact ⟨rfl, rfl, rfl⟩

/-- Witness for the amended C9: on `G9b` (year cell 2025, month cell 6) the
kympitys date is 1 June 2025. -/
theorem c9_witness :
    extractKympitys G9b = some ⟨2025, 6, 1⟩ :=
  ((c9_amended_kympitys_characterization G9b 2025 6).1).mpr
    ⟨Value.int 2025, Value.int 6, by decide, by decide, by decide, by decide,
     by norm_num, by norm_num, by norm_num, by norm_num⟩

/-- Row acceptance as the spec words it: the row's serial (after string
coercion) is non-blank and exactly equal to the searched serial, and the
model comparison is waived when either side's model is blank. -/
def rowMatchesSpec (cols : List String) (sf mf : String) (row : List Value) : Bool :=
  decide ((rowSerial cols row ≠ "" ∧ sf ≠ "" ∧ rowSerial cols row = sf) ∧
          (rowModel cols row = "" ∨ mf = "" ∨ rowModel cols row = mf))

/-- The device scan is exactly a first-index search for the spec-side row
acceptance: model-mismatching rows with the right serial are skipped and the
scan continues. -/
theorem findDeviceAux_eq_findIdx? (cols : List String) (sf mf : String) :
    ∀ (rows : List (List Value)) (i : Nat),
      findDeviceAux cols sf mf rows i =
        rows.findIdx? (rowMatchesSpec cols sf mf) i := by
  intro rows
  induction rows with
  | nil => intro i; rfl
  | cons row rest ih =>
    intro i
    rw [List.findIdx?_cons]
    unfold findDeviceAux
    dsimp only
    by_cases h1 : rowSerial cols row ≠ "" ∧ sf ≠ "" ∧ rowSerial cols row = sf
    · rw [if_pos h1]
      by_cases h2 : rowModel cols row = "" ∨ mf = "" ∨ rowModel cols row = mf
      · rw [if_pos h2, if_pos (by simp [rowMatchesSpec, h1, h2])]
      · rw [if_neg h2, if_neg (by simp [rowMatchesSpec, h1, h2]), ih]
    · rw [if_neg h1, if_neg (by simp [rowMatchesSpec, h1]), ih]

/-- For a non-empty searched serial, `_find_existing_device` is the
first-index search for spec-side row acceptance. -/
theorem find_eq_findIdx? (t : Table) (r : PyRecord) (hs : serialToFind r ≠ "") :
    find_existing_device t r =
      t.rows.findIdx? (rowMatchesSpec t.cols (serialToFind r) (modelToFind r)) := by
  unfold find_existing_device
  dsimp only
  rw [if_neg hs]
  exact findDeviceAux_eq_findIdx? _ _ _ _ 0

/-- A successful device lookup implies the searched serial was non-empty. -/
theorem find_some_serial_ne (t : Table) (r : PyRecord) (i : Nat)
    (h : find_existing_device t r = some i) : serialToFind r ≠ "" := by
  intro he
  unfold find_existing_device at h
  dsimp only at h
  rw [if_pos he] at h
  exact Option.noConfusion h

/-- A successful device lookup returns an in-range index whose row carries
exactly the searched serial. -/
theorem find_some_facts (t : Table) (r : PyRecord) (i : Nat)
    (h : find_existing_device t r = some i) :
    ∃ hlt : i < t.rows.length,
      rowSerial t.cols (t.rows.get ⟨i, hlt⟩) = serialToFind r := by
  have hs := find_some_serial_ne t r i h
  rw [find_eq_findIdx? t r hs] at h
  rw [List.findIdx?_eq_some_iff_getElem] at h
  obtain ⟨hlt, hp, -⟩ := h
  refine ⟨hlt, ?_⟩
  simp only [rowMatchesSpec, decide_eq_true_eq] at hp
  exact hp.1.2.2

/-- C3: matching is serial-driven and model-tolerant — an empty or missing
serial never matches any row; a non-empty serial resolves to the first row
accepted by the spec-side predicate (exact, case-sensitive string equality on
serial, model mismatch skipping the row and continuing the scan, blank model
on either side waiving the comparison); and two records that match the same
row necessarily searched for the same serial. -/
theorem c3_serial_driven_matching (t : Table) (r r2 : PyRecord) :
    (serialToFind r = "" → find_existing_device t r = Option.none)
    ∧ (serialToFind r ≠ "" →
        find_existing_device t r =
          t.rows.findIdx? (rowMatchesSpec t.cols (serialToFind r) (modelToFind r)))
    ∧ (∀ i, find_existing_device t r = some i → find_existing_device t r2 = some i →
        serialToFind r = serialToFind r2) := by
  refine ⟨?_, fun hs => find_eq_findIdx? t r hs, ?_⟩
  · intro he
    unfold find_existing_device
    dsimp only
    rw [if_pos he]
  · intro i h1 h2
    obtain ⟨hlt1, hr1⟩ := find_some_facts t r i h1
    obtain ⟨hlt2, hr2⟩ := find_some_facts t r2 i h2
    rw [← hr1, ← hr2]

/-- A tiny registry for the C3 witness: two rows share serial S1 with
different models, a third row has serial S2. -/
def T3 : Table :=
  ⟨["Laitteen nimi", "Laitteen sarjanumero"],
   [[.str "A", .str "S1"], [.str "B", .str "S1"], [.none, .str "S2"]]⟩

/-- A record searching serial S1 with model B. -/
def r3 : PyRecord := { model := .str "B", serial_number := .str "S1", filename := "w.xlsx" }

/-- Witness for C3: searching S1/model B skips the S1/model A row and
resolves to the second S1 row, in agreement with the spec-side first-index
search. -/
theorem c3_witness :
    find_existing_device T3 r3 =
      T3.rows.findIdx? (rowMatchesSpec T3.cols (serialToFind r3) (modelToFind r3))
    ∧ find_existing_device T3 r3 = some 1 :=
  ⟨(c3_serial_driven_matching T3 r3 r3).2.1 (by decide), by decide⟩

/-- A found column index is within the header. -/
theorem colIdx_lt (cols : List String) (c : String) (j : Nat)
    (h : colIdx cols c = some j) : j < cols.length := by
  induction cols generalizing j with
  | nil => exact Option.noConfusion h
  | cons c0 rest ih =>
    unfold colIdx at h
    split at h
    · injection h with h'
      simp [← h']
    · cases hr : colIdx rest c with
      | none => rw [hr] at h; exact Option.noConfusion h
      | some j' =>
        rw [hr] at h
        simp only [Option.map_some', Option.some.injEq] at h
        have := ih j' hr
        simp only [List.length_cons]
        omega

/-- A found column index reads back the searched name. -/
theorem colIdx_get (cols : List String) (c : String) (j : Nat)
    (h : colIdx cols c = some j) : cols[j]? = some c := by
  induction cols generalizing j with
  | nil => exact Option.noConfusion h
  | cons c0 rest ih =>
    unfold colIdx at h
    split at h
    · rename_i heq
      injection h with h'
      rw [← h', heq]
      simp
    · cases hr : colIdx rest c with
      | none => rw [hr] at h; exact Option.noConfusion h
      | some j' =>
        rw [hr] at h
        simp only [Option.map_some', Option.some.injEq] at h
        rw [← h]
        simpa using ih j' hr

/-- Membership in the header yields a column index. -/
theorem colIdx_isSome_of_mem (cols : List String) (c : String) (h : c ∈ cols) :
    (colIdx cols c).isSome := by
  induction cols with
  | nil => cases h
  | cons c0 rest ih =>
    unfold colIdx
    split
    · rfl
    · rename_i hne
      rcases List.mem_cons.mp h with h0 | h0
      · exact absurd h0.symm hne
      · simpa using ih h0

/-- Sequential cell writes preserve the row length. -/
theorem applyPairs_length (cols : List String) :
    ∀ (pairs : List (String × Value)) (row : List Value),
      (applyPairs cols row pairs).length = row.length := by
  intro pairs
  induction pairs with
  | nil => intro row; rfl
  | cons p rest ih =>
    obtain ⟨k, v⟩ := p
    intro row
    unfold applyPairs
    cases hc : colIdx cols k with
    | none => rw [ih]
    | some j => rw [ih, List.length_set]

/-- A cell whose index no pair addresses is untouched by the writes. -/
theorem applyPairs_getElem?_untouched (cols : List String) :
    ∀ (pairs : List (String × Value)) (row : List Value) (j : Nat),
      (∀ p ∈ pairs, colIdx cols p.1 ≠ some j) →
      (applyPairs cols row pairs)[j]? = row[j]? := by
  intro pairs
  induction pairs with
  | nil => intro row j _; rfl
  | cons p rest ih =>
    obtain ⟨k, v⟩ := p
    intro row j h
    unfold applyPairs
    cases hc : colIdx cols k with
    | none => exact ih row j (fun q hq => h q (List.mem_cons_of_mem _ hq))
    | some j' =>
      have hne : j' ≠ j := by
        intro hEq
        exact h (k, v) (List.mem_cons_self _ _) (by rw [hc, hEq])
      rw [ih _ j (fun q hq => h q (List.mem_cons_of_mem _ hq))]
      exact List.getElem?_set_ne hne

/-- With pairwise-distinct keys, the cell addressed by a pair's key reads
back that pair's value after the writes. -/
theorem applyPairs_getElem?_written (cols : List String) (k : String) (v : Value)
    (j : Nat) (hj : colIdx cols k = some j) :
    ∀ (pairs : List (String × Value)) (row : List Value),
      (pairs.map Prod.fst).Nodup → pairs.lookup k = some v → j < row.length →
      (applyPairs cols row pairs)[j]? = some v := by
  intro pairs
  induction pairs with
  | nil => intro row _ hl _; exact Option.noConfusion hl
  | cons p rest ih =>
    obtain ⟨k', v'⟩ := p
    intro row hnd hl hlen
    unfold applyPairs
    by_cases hkk : k = k'
    · have hbeq : (k == k') = true := beq_iff_eq.mpr hkk
      have hv : v' = v := by
        simp only [List.lookup, hbeq] at hl
        injection hl
      rw [← hkk, hj]
      have hnotin : k ∉ rest.map Prod.fst := by
        rw [hkk]
        have hnd' : (k' :: rest.map Prod.fst).Nodup := by simpa using hnd
        exact (List.nodup_cons.mp hnd').1
      have huntouched : ∀ q ∈ rest, colIdx cols q.1 ≠ some j := by
        intro q hq hcontra
        have h1 := colIdx_get cols k j hj
        have h2 := colIdx_get cols q.1 j hcontra
        rw [h1] at h2
        injection h2 with h2'
        exact hnotin (h2' ▸ List.mem_map_of_mem Prod.fst hq)
      rw [applyPairs_getElem?_untouched cols rest _ j huntouched]
      rw [List.getElem?_set_self hlen, hv]
    · have hbeq : (k == k') = false := beq_eq_false_iff_ne.mpr hkk
      have hl' : rest.lookup k = some v := by
        simpa [List.lookup, hbeq] using hl
      have hnd' : (rest.map Prod.fst).Nodup :=
        (List.nodup_cons.mp (by simpa using hnd : (k' :: rest.map Prod.fst).Nodup)).2
      cases hc : colIdx cols k' with
      | none => exact ih row hnd' hl' hlen
      | some j' => exact ih _ hnd' hl' (by rw [List.length_set]; exact hlen)

/-- The 15 target keys of `new_data` are pairwise distinct. -/
theorem newData_keys_nodup (r : PyRecord) : ((newDataPairs r).map Prod.fst).Nodup := by
  show (["Aktiivinen", "Tilaaja", "Tilaajan laite", "Laitteen nimi",
    "Laitteen sarjanumero", "Tarkastettu", "Seuraava tarkastus", "Seuraava kympitys",
    "Huollettu/korjattu", "Työmaa", "Lisätieto", "Verkkolaskutus1", "Verkkolaskutus2",
    "Maksuehto", "Tarkastuspöytäkirja"] : List String).Nodup
  decide

/-- The serial value carried by `new_data`. -/
theorem newData_lookup_serial (r : PyRecord) :
    (newDataPairs r).lookup "Laitteen sarjanumero" = some r.serial_number := by rfl

/-- The model value carried by `new_data`. -/
theorem newData_lookup_model (r : PyRecord) :
    (newDataPairs r).lookup "Laitteen nimi" = some r.model := by rfl

/-- Non-missing values are not NA. -/
theorem pyNotna_of_ne_none (v : Value) (h : v ≠ .none) : pyNotna v = true := by
  cases v with
  | none => exact absurd rfl h
  | str s => rfl
  | int n => rfl
  | bool b => rfl
  | date d => rfl

/-- A non-empty searched serial comes from a present serial field. -/
theorem serial_ne_none_of_sf (r : PyRecord) (hs : serialToFind r ≠ "") :
    r.serial_number ≠ .none := by
  intro hn
  apply hs
  unfold serialToFind
  rw [if_neg (by simp [hn])]

/-- After writing `new_data` into a full-width row, that row is accepted by
the spec-side matcher for the same record: its serial cell now holds the
record's serial, and its model cell either holds the record's model or is
blank. -/
theorem rowMatches_after_write (cols : List String) (row : List Value) (r : PyRecord)
    (hcol : "Laitteen sarjanumero" ∈ cols)
    (hlen : row.length = cols.length) (hs : serialToFind r ≠ "") :
    rowMatchesSpec cols (serialToFind r) (modelToFind r)
      (applyPairs cols row (newDataPairs r)) = true := by
  obtain ⟨j, hj⟩ := Option.isSome_iff_exists.mp (colIdx_isSome_of_mem cols _ hcol)
  have hjlt : j < cols.length := colIdx_lt _ _ _ hj
  have hserCell : (applyPairs cols row (newDataPairs r))[j]? = some r.serial_number :=
    applyPairs_getElem?_written cols _ _ j hj _ row (newData_keys_nodup r)
      (newData_lookup_serial r) (by omega)
  have hsne : r.serial_number ≠ .none := serial_ne_none_of_sf r hs
  have hser : rowSerial cols (applyPairs cols row (newDataPairs r)) = serialToFind r := by
    unfold rowSerial rowGetD
    rw [hj]
    dsimp only
    rw [List.getD_eq_getElem?_getD, hserCell]
    dsimp only [Option.getD]
    rw [if_pos (pyNotna_of_ne_none _ hsne)]
    unfold serialToFind
    rw [if_pos hsne]
  have hmodel : rowModel cols (applyPairs cols row (newDataPairs r)) = ""
      ∨ modelToFind r = ""
      ∨ rowModel cols (applyPairs cols row (newDataPairs r)) = modelToFind r := by
    cases hcm : colIdx cols "Laitteen nimi" with
    | none =>
      left
      unfold rowModel rowGetD
      rw [hcm]
      rfl
    | some jm =>
      have hjmlt := colIdx_lt _ _ _ hcm
      have hcell : (applyPairs cols row (newDataPairs r))[jm]? = some r.model :=
        applyPairs_getElem?_written cols _ _ jm hcm _ row (newData_keys_nodup r)
          (newData_lookup_model r) (by omega)
      by_cases hmn : r.model = .none
      · left
        unfold rowModel rowGetD
        rw [hcm]
        dsimp only
        rw [List.getD_eq_getElem?_getD, hcell]
        dsimp only [Option.getD]
        rw [hmn]
        rfl
      · right; right
        unfold rowModel rowGetD modelToFind
        rw [hcm]
        dsimp only
        rw [List.getD_eq_getElem?_getD, hcell]
        dsimp only [Option.getD]
        rw [if_pos (pyNotna_of_ne_none _ hmn), if_pos hmn]
  simp only [rowMatchesSpec, decide_eq_true_eq]
  exact ⟨⟨by rw [hser]; exact hs, hs, hser⟩, hmodel⟩

/-- On a match, one processing step updates the matched row in place and
reports `"Updated"`. -/
theorem processOne_of_found (t : Table) (r : PyRecord) (i : Nat)
    (herr : r.error = Option.none) (hf : find_existing_device t r = some i) :
    processOne t r = (updateRow t i r, mergedResult "Updated" r) := by
  simp only [processOne, herr, hf]

/-- On a miss, one processing step appends the fresh row and reports
`"Added"`. -/
theorem processOne_of_notfound (t : Table) (r : PyRecord)
    (herr : r.error = Option.none) (hf : find_existing_device t r = Option.none) :
    processOne t r =
      ({ t with rows := t.rows ++ [newRowFor t r] }, mergedResult "Added" r) := by
  simp only [processOne, herr, hf]

/-- C4: for every well-formed registry table that carries the serial column
and every non-error record with a non-empty serial, reconciling the record a
second time against the table produced by the first reconciliation finds the
very row the first pass wrote (the matched row on an update, the appended row
at index `t.rows.length` on an insert), updates it in place with status
`"Updated"`, and leaves the row count unchanged. -/
theorem c4_idempotent_reconcile (t : Table) (r : PyRecord)
    (hwf : ∀ row ∈ t.rows, row.length = t.cols.length)
    (hcol : "Laitteen sarjanumero" ∈ t.cols)
    (herr : r.error = Option.none)
    (hs : serialToFind r ≠ "") :
    find_existing_device (processOne t r).1 r =
      some ((find_existing_device t r).getD t.rows.length)
    ∧ (processOne (processOne t r).1 r).2.status = "Updated"
    ∧ (processOne (processOne t r).1 r).1.rows.length = (processOne t r).1.rows.length := by
  have hmain : find_existing_device (processOne t r).1 r =
      some ((find_existing_device t r).getD t.rows.length) := by
    cases hf : find_existing_device t r with
    | some i =>
      have hfi : t.rows.findIdx?
          (rowMatchesSpec t.cols (serialToFind r) (modelToFind r)) = some i := by
        rw [← find_eq_findIdx? t r hs, hf]
      rw [List.findIdx?_eq_some_iff_getElem] at hfi
      obtain ⟨hlt, hp, hfirst⟩ := hfi
      have hrowlen : (t.rows.getD i []).length = t.cols.length := by
        rw [List.getD_eq_getElem?_getD, List.getElem?_eq_getElem hlt]
        exact hwf _ (List.getElem_mem hlt)
      have hmatch := rowMatches_after_write t.cols (t.rows.getD i []) r hcol hrowlen hs
      rw [processOne_of_found t r i herr hf]
      simp only [Option.getD_some]
      rw [find_eq_findIdx? (updateRow t i r) r hs]
      show (t.rows.set i (applyPairs t.cols (t.rows.getD i []) (newDataPairs r))).findIdx?
        (rowMatchesSpec t.cols (serialToFind r) (modelToFind r)) = some i
      rw [List.findIdx?_eq_some_iff_getElem]
      refine ⟨by rw [List.length_set]; exact hlt, ?_, ?_⟩
      · rw [List.getElem_set_self]
        exact hmatch
      · intro j hji
        rw [List.getElem_set_ne (by omega)]
        exact hfirst j hji
    | none =>
      have hfi : t.rows.findIdx?
          (rowMatchesSpec t.cols (serialToFind r) (modelToFind r)) = Option.none := by
        rw [← find_eq_findIdx? t r hs, hf]
      have hnewlen : ((t.cols.map (fun _ => Value.none)).length = t.cols.length) := by simp
      have hmatch := rowMatches_after_write t.cols (t.cols.map (fun _ => Value.none))
        r hcol hnewlen hs
      rw [processOne_of_notfound t r herr hf]
      simp only [Option.getD_none]
      rw [find_eq_findIdx? _ r hs]
      show (t.rows ++ [newRowFor t r]).findIdx?
        (rowMatchesSpec t.cols (serialToFind r) (modelToFind r)) = some t.rows.length
      have hmatch' : rowMatchesSpec t.cols (serialToFind r) (modelToFind r)
          (newRowFor t r) = true := hmatch
      rw [List.findIdx?_append, hfi, Option.none_or, List.findIdx?_cons, if_pos hmatch']
      simp
  refine ⟨hmain, ?_, ?_⟩
  · rw [processOne_of_found (processOne t r).1 r _ herr hmain]
    rfl
  · rw [processOne_of_found (processOne t r).1 r _ herr hmain]
    show ((processOne t r).1.rows.set _ _).length = _
    exact List.length_set _ _ _

/-- Witness for C4: re-reconciling the SN001 record against the table its
first reconciliation produced updates row 0 again and keeps one row. -/
theorem c4_witness :
    find_existing_device (processOne T1 rUpd).1 rUpd =
      some ((find_existing_device T1 rUpd).getD T1.rows.length)
    ∧ (processOne (processOne T1 rUpd).1 rUpd).2.status = "Updated"
    ∧ (processOne (processOne T1 rUpd).1 rUpd).1.rows.length =
      (processOne T1 rUpd).1.rows.length :=
  c4_idempotent_reconcile T1 rUpd (by decide) (by decide) (by decide) (by decide)

/-- C5 counterexample: the claim asserts that on an update only values
present in the record overwrite cells and that columns outside the extracted
set (such as the free-text note) keep their prior contents.  Updating the
SN001 row of `T1` with `rNote` (which carries only a serial number) clears
the prior free-text note "muistiinpano", the prior owner "Acme" and the prior
inspection date "01.01.2020" to null, refuting both parts. -/
theorem c5_counterexample_note_cleared :
    rowGetD T1.cols row1 "Lisätieto" .none = Value.str "muistiinpano"
    ∧ rowGetD T1.cols row1 "Tilaaja" .none = Value.str "Acme"
    ∧ rowGetD T1.cols row1 "Tarkastettu" .none = Value.str "01.01.2020"
    ∧ find_existing_device T1 rNote = some 0
    ∧ (processOne T1 rNote).2.status = "Updated"
    ∧ rowGetD T1.cols ((processOne T1 rNote).1.rows.getD 0 []) "Lisätieto" .none = Value.none
    ∧ rowGetD T1.cols ((processOne T1 rNote).1.rows.getD 0 []) "Tilaaja" .none = Value.none
    ∧ rowGetD T1.cols ((processOne T1 rNote).1.rows.getD 0 []) "Tarkastettu" .none
      = Value.none := by decide

/-- A row read from a well-formed table has full width. -/
theorem row_at_full_width (t : Table) (i : Nat) (hlt : i < t.rows.length)
    (hwf : ∀ row ∈ t.rows, row.length = t.cols.length) :
    (t.rows.getD i []).length = t.cols.length := by
  rw [List.getD_eq_getElem?_getD, List.getElem?_eq_getElem hlt]
  exact hwf _ (List.getElem_mem hlt)

/-- A missing lookup means no pair carries the key. -/
theorem lookup_none_keys (c : String) :
    ∀ (pairs : List (String × Value)), pairs.lookup c = Option.none →
      ∀ p ∈ pairs, p.1 ≠ c := by
  intro pairs
  induction pairs with
  | nil => intro _ p hp; cases hp
  | cons q rest ih =>
    obtain ⟨k', v'⟩ := q
    intro h p hp
    by_cases hck : c = k'
    · exfalso
      have hbeq : (c == k') = true := beq_iff_eq.mpr hck
      simp only [List.lookup, hbeq] at h
      exact Option.noConfusion h
    · have hbeq : (c == k') = false := beq_eq_false_iff_ne.mpr hck
      simp only [List.lookup, hbeq] at h
      rcases List.mem_cons.mp hp with h0 | h0
      · rw [h0]
        exact fun he => hck he.symm
      · exact ih h p h0

/-- C5 (amended): on an update, exactly the `new_data` keys that exist as
table columns are overwritten — with the record's values where present and
with null where the record carries nothing (including the always-empty
columns such as the free-text note), the activity flag becoming true among
them — while every column outside the `new_data` key set keeps its prior
contents and every other row of the table is unchanged. -/
theorem c5_amended_update_frame (t : Table) (r : PyRecord) (i : Nat)
    (hwf : ∀ row ∈ t.rows, row.length = t.cols.length)
    (herr : r.error = Option.none)
    (hfind : find_existing_device t r = some i) :
    (processOne t r).1.cols = t.cols
    ∧ (processOne t r).1.rows.length = t.rows.length
    ∧ (∀ j, j ≠ i → (processOne t r).1.rows[j]? = t.rows[j]?)
    ∧ (∀ c, (newDataPairs r).lookup c = Option.none →
        rowGetD t.cols ((processOne t r).1.rows.getD i []) c .none =
          rowGetD t.cols (t.rows.getD i []) c .none)
    ∧ (∀ c v, (newDataPairs r).lookup c = some v → c ∈ t.cols →
        rowGetD t.cols ((processOne t r).1.rows.getD i []) c .none = v) := by
  obtain ⟨hlt, -⟩ := find_some_facts t r i hfind
  have hrowlen := row_at_full_width t i hlt hwf
  have hproc := processOne_of_found t r i herr hfind
  have hrows : (processOne t r).1.rows =
      t.rows.set i (applyPairs t.cols (t.rows.getD i []) (newDataPairs r)) := by
    rw [hproc]
    rfl
  have hat : (processOne t r).1.rows.getD i [] =
      applyPairs t.cols (t.rows.getD i []) (newDataPairs r) := by
    rw [hrows, List.getD_eq_getElem?_getD, List.getElem?_set_self hlt]
    rfl
  refine ⟨by rw [hproc]; rfl, by rw [hrows, List.length_set], ?_, ?_, ?_⟩
  · intro j hj
    rw [hrows]
    exact List.getElem?_set_ne (fun he => hj he.symm)
  · intro c hc
    unfold rowGetD
    cases hcc : colIdx t.cols c with
    | none => rfl
    | some jc =>
      rw [hat]
      dsimp only
      have huntouched : ∀ p ∈ newDataPairs r, colIdx t.cols p.1 ≠ some jc := by
        intro p hp hcontra
        have h1 := colIdx_get t.cols c jc hcc
        have h2 := colIdx_get t.cols p.1 jc hcontra
        rw [h1] at h2
        injection h2 with h2'
        exact lookup_none_keys c (newDataPairs r) hc p hp h2'.symm
      rw [List.getD_eq_getElem?_getD,
        applyPairs_getElem?_untouched t.cols (newDataPairs r) _ jc huntouched]
      simp
  · intro c v hl hcmem
    obtain ⟨jc, hjc⟩ := Option.isSome_iff_exists.mp (colIdx_isSome_of_mem t.cols c hcmem)
    have hjclt := colIdx_lt _ _ _ hjc
    unfold rowGetD
    rw [hjc, hat]
    dsimp only
    rw [List.getD_eq_getElem?_getD,
      applyPairs_getElem?_written t.cols c v jc hjc _ _ (newData_keys_nodup r) hl
        (by omega)]
    rfl

/-- Witness for the amended C5: updating the SN001 row of `T1` with `rNote`
sets the activity flag true, writes the source filename, keeps the other row
count at one, and the untouched-key reads go through the amended theorem. -/
theorem c5_witness :
    rowGetD T1.cols ((processOne T1 rNote).1.rows.getD 0 []) "Aktiivinen" .none
      = Value.bool true
    ∧ rowGetD T1.cols ((processOne T1 rNote).1.rows.getD 0 []) "Tarkastuspöytäkirja" .none
      = Value.str "n.xlsx"
    ∧ (processOne T1 rNote).1.rows.length = T1.rows.length :=
  ⟨(c5_amended_update_frame T1 rNote 0 (by decide) (by decide) (by decide)).2.2.2.2
      "Aktiivinen" (Value.bool true) (by decide) (by decide),
   (c5_amended_update_frame T1 rNote 0 (by decide) (by decide) (by decide)).2.2.2.2
      "Tarkastuspöytäkirja" (Value.str "n.xlsx") (by decide) (by decide),
   (c5_amended_update_frame T1 rNote 0 (by decide) (by decide) (by decide)).2.1⟩

end Poytakirjat
